import Mathlib

set_option linter.unusedVariables false

/-!
Verification development for the mcp-builder-agent repository.

This file gives a shallow embedding of the repository's Python modules:

* `src/orchestrator/orchestrator.py` — the `linkup_search` tool, the
  `research_worker` tool, and the request payload they build;
* `src/worker/worker.py` — `linkup_search_worker`, the consolidated
  `search_categories`, and `deep_research_tool` with its
  `asyncio.gather(..., return_exceptions=True)` fan-out and aggregation;
* `src/worker/linkup_service.py` — `search_with_linkup` over the Linkup SDK;
* `src/worker/agent_tools.py` — `LinkupSearchTool.run`, its subject
  extraction/fallback, its ten search categories and its aggregation;
* `src/api_server.py` — the `/search/` endpoint handler `run_search_agent`
  and the registered routes.

External collaborators (the LLM runtime, the httpx client, the Linkup SDK,
`json.loads`, the event loop) are modelled as explicit outcome parameters:
a function that performs an outbound call takes the outcome of that call as
an argument, and a `json.loads` call site takes the parse outcome as an
argument.  Python values produced by the `json` module are modelled by the
`PyObj` inductive; `json.dumps` is modelled by `PyObj.dumps` (indentation
and exact escaping are immaterial to the claims, which only concern the
structure of the serialized object).
-/

/-- Model of a Python value handled by the `json` module: the result of
`json.loads` and the argument of `json.dumps`. -/
inductive PyObj where
  | null
  | bool (b : Bool)
  | int (n : Int)
  | str (s : String)
  | list (xs : List PyObj)
  | dict (fields : List (String × PyObj))

/-- Escaping of a character inside a JSON string literal, as performed by
`json.dumps` (quotes, backslashes and common control characters). -/
def jsonEscapeChar (c : Char) : String :=
  if c = '"' then "\\\""
  else if c = '\\' then "\\\\"
  else if c = '\n' then "\\n"
  else if c = '\t' then "\\t"
  else if c = '\r' then "\\r"
  else String.singleton c

/-- Escaping of a JSON string literal body. -/
def jsonEscape (s : String) : String :=
  String.join (s.toList.map jsonEscapeChar)

mutual

/-- Model of `json.dumps`: serialize a `PyObj` to a JSON string.  The
repository calls `json.dumps` both with and without `indent=2`; the claims
only depend on the structure of the serialized object, so a single
single-line rendering is used. -/
def PyObj.dumps : PyObj → String
  | PyObj.null => "null"
  | PyObj.bool true => "true"
  | PyObj.bool false => "false"
  | PyObj.int n => toString n
  | PyObj.str s => "\"" ++ jsonEscape s ++ "\""
  | PyObj.list xs => "[" ++ PyObj.dumpsList xs ++ "]"
  | PyObj.dict fs => "\x7b" ++ PyObj.dumpsFields fs ++ "\x7d"

/-- Serialize the elements of a JSON array, comma separated. -/
def PyObj.dumpsList : List PyObj → String
  | [] => ""
  | [x] => PyObj.dumps x
  | x :: y :: xs => PyObj.dumps x ++ ", " ++ PyObj.dumpsList (y :: xs)

/-- Serialize the fields of a JSON object, comma separated. -/
def PyObj.dumpsFields : List (String × PyObj) → String
  | [] => ""
  | [(k, v)] => "\"" ++ jsonEscape k ++ "\": " ++ PyObj.dumps v
  | (k, v) :: f :: fs =>
      "\"" ++ jsonEscape k ++ "\": " ++ PyObj.dumps v ++ ", " ++
        PyObj.dumpsFields (f :: fs)

end

/-- Whether a `PyObj` is a JSON object carrying the given key. -/
def PyObj.hasKey : PyObj → String → Bool
  | PyObj.dict fs, k => fs.any (fun kv => kv.1 == k)
  | _, _ => false

/-- Model of Python `dict.get(k)`: the value at the first matching key,
`none` when the key is absent. -/
def pyGet (fields : List (String × PyObj)) (k : String) : Option PyObj :=
  (fields.find? (fun kv => kv.1 == k)).map (fun kv => kv.2)

/-- Python truthiness of a JSON-module value: empty containers, the empty
string, zero, `False` and `None` are falsy. -/
def PyObj.truthy : PyObj → Bool
  | PyObj.null => false
  | PyObj.bool b => b
  | PyObj.int n => n != 0
  | PyObj.str s => !s.isEmpty
  | PyObj.list xs => !xs.isEmpty
  | PyObj.dict fs => !fs.isEmpty

/-- Python truthiness of `dict.get`'s result: `None` (absent key) is falsy. -/
def optTruthy : Option PyObj → Bool
  | none => false
  | some v => v.truthy

/-- Python `str(...)` display of a JSON-module value, as interpolated by an
f-string.  The display of containers is abbreviated; no claim depends on it. -/
def pyStr : PyObj → String
  | PyObj.null => "None"
  | PyObj.bool true => "True"
  | PyObj.bool false => "False"
  | PyObj.int n => toString n
  | PyObj.str s => s
  | PyObj.list _ => "[...]"
  | PyObj.dict _ => "..."

/-- The whitespace characters stripped by Python's `str.strip()` (ASCII). -/
def pyIsSpace (c : Char) : Bool :=
  c == ' ' || c == '\t' || c == '\n' || c == '\r' || c == '\x0b' || c == '\x0c'

/-- Python's `not s or not s.strip()`: true exactly when the string is empty
or consists only of whitespace. -/
def py_blank (s : String) : Bool :=
  s.toList.all pyIsSpace

/-- One entry of the `sources` array of a Linkup `sourcedAnswer` response.
`none` models an absent key, so `source.get(k, default)` yields the default. -/
structure LinkupSource where
  name : Option String
  title : Option String
  url : Option String
  snippet : Option String

/-- One numbered source line of the formatted search result, exactly as
built by the loop `for i, source in enumerate(sources, 1)` shared by
`linkup_search` (orchestrator) and `linkup_search_worker` (worker). -/
def format_source_lines : Nat → List LinkupSource → String
  | _, [] => ""
  | i, s :: rest =>
      let title := s.name.getD (s.title.getD ("No title"))
      let url := s.url.getD ("No URL")
      let snippet := s.snippet.getD ("No snippet")
      toString i ++ ". " ++ title ++ " - " ++ url ++ "\n" ++ snippet ++ "\n\n" ++
        format_source_lines (i + 1) rest

/-- The formatted search result string built in the 200 branch of both
httpx wrappers: the answer, then the sources block when sources is
non-empty. -/
def formatted_result (answer : String) (sources : List LinkupSource) : String :=
  let base := "Answer: " ++ answer ++ "\n\n"
  if sources.isEmpty then base
  else base ++ "Sources:\n" ++ format_source_lines 1 sources

/-- Outcome of the outbound `httpx` POST to the Linkup API, as observed at
the call site: a response with a status code and (for 200) a parsed body,
a timeout (`httpx.TimeoutException`), or any other exception. -/
inductive HttpxOutcome where
  | response (status : Nat) (answer : String) (sources : List LinkupSource)
  | timeout
  | exn (msg : String)

/-- The JSON payload both httpx wrappers POST to `/v1/search`. -/
structure LinkupPayload where
  q : String
  depth : String
  outputType : String
deriving DecidableEq

namespace Orchestrator

/-- The request payload built by `linkup_search` in
`src/orchestrator/orchestrator.py`: the function body overwrites the
`depth` argument with the constant `"deep"` before building the payload. -/
def linkup_search_request (query : String) (depth : String) : LinkupPayload :=
  let depth := "deep"
  { q := query, depth := depth, outputType := "sourcedAnswer" }

/-- Model of `linkup_search` from `src/orchestrator/orchestrator.py`.  `api_key`
models `os.getenv("LINKUP_API_KEY")`; `outcome` models the result of the
outbound httpx call. -/
def linkup_search (api_key : Option String) (query : String) (depth : String)
    (outcome : HttpxOutcome) : String :=
  match api_key with
  | none => "Error: Linkup API key not configured"
  | some _ =>
    match outcome with
    | HttpxOutcome.response status answer sources =>
        if status = 200 then formatted_result answer sources
        else "Error: Linkup API returned status " ++ toString status
    | HttpxOutcome.timeout => "Error: Search request timed out"
    | HttpxOutcome.exn e => "Error: Search failed - " ++ e

/-- Model of `research_worker` from `src/orchestrator/orchestrator.py`.  `workerRun`
models the whole try body (creating the worker agent, running it, and
extracting `final_output`): `Except.ok` is the final output string and
`Except.error` is the message of any exception raised inside the try. -/
def research_worker (tool_name : String) (research_focus : String)
    (workerRun : Except String String) : String :=
  match workerRun with
  | Except.ok finalOutput => finalOutput
  | Except.error e =>
      PyObj.dumps (PyObj.dict
        [("error", PyObj.str ("Research failed for " ++ tool_name ++ ": " ++ e)),
         ("tool_name", PyObj.str tool_name),
         ("research_focus", PyObj.str research_focus)])

end Orchestrator

namespace Worker

/-- The request payload built by `linkup_search_worker` in
`src/worker/worker.py`: the function body overwrites the `depth` argument
with the constant `"standard"` before building the payload. -/
def linkup_search_worker_request (query : String) (depth : String) : LinkupPayload :=
  let depth := "standard"
  { q := query, depth := depth, outputType := "sourcedAnswer" }

/-- Model of `linkup_search_worker` from `src/worker/worker.py`.  `api_key` models
the module constant `LINKUP_API_KEY`; `outcome` models the outbound httpx
call's result.  Identical to the orchestrator's `linkup_search` apart from
the pinned depth. -/
def linkup_search_worker (api_key : Option String) (query : String) (depth : String)
    (outcome : HttpxOutcome) : String :=
  match api_key with
  | none => "Error: Linkup API key not configured"
  | some _ =>
    match outcome with
    | HttpxOutcome.response status answer sources =>
        if status = 200 then formatted_result answer sources
        else "Error: Linkup API returned status " ++ toString status
    | HttpxOutcome.timeout => "Error: Search request timed out"
    | HttpxOutcome.exn e => "Error: Search failed - " ++ e

/-- Query of the `basic_info_technical` category of `deep_research_tool`. -/
def basic_info_technical_query (subject : String) : String :=
  subject ++ " API official documentation, GitHub repository stars forks, pricing tiers free tier paid plans business model, release date last update, security SOC2 ISO27001 GDPR compliance, official website logo about description"

/-- Query of the `community_feedback` category of `deep_research_tool`. -/
def community_feedback_query (subject : String) : String :=
  "reddit.com " ++ subject ++ " API review pros cons advantages disadvantages experience, OR producthunt.com " ++ subject ++ " featured product launch upvotes ranking, OR stackoverflow.com " ++ subject ++ " API questions tagged discussions development community feedback"

/-- Query of the `implementation_examples` category of `deep_research_tool`. -/
def implementation_examples_query (subject : String) : String :=
  subject ++ " API integration code examples python javascript nodejs curl, SDK libraries installation tutorial, use cases projects GitHub repositories implementations, starter templates getting started guide"

/-- The consolidated `search_categories` dict of `deep_research_tool` in
`src/worker/worker.py`, in definition order. -/
def search_categories (subject : String) : List (String × String) :=
  [("basic_info_technical", basic_info_technical_query subject),
   ("community_feedback", community_feedback_query subject),
   ("implementation_examples", implementation_examples_query subject)]

/-- The task list built by the loop `for category, query in
search_categories.items(): tasks.append(linkup_search_worker(query,
depth="deep"))`.  `search` abstracts the behavior of one
`linkup_search_worker` call on a query (the pinned depth makes the call a
function of the query alone); `Except.error` models a task that raises. -/
def deep_research_tasks (subject : String)
    (search : String → Except String String) : List (Except String String) :=
  (search_categories subject).map (fun cq => search cq.2)

/-- Model of `asyncio.gather(*tasks, return_exceptions=True)`: every
launched task runs to completion independently and its outcome — result or
captured exception — is delivered at that task's position, in order. -/
def asyncio_gather_re (outcomes : List (Except String String)) :
    List (Except String String) :=
  outcomes

/-- The aggregation performed per category in `deep_research_tool`'s result
loop: an exception outcome becomes that category's own error record, a
result becomes that category's own search result record. -/
def research_entry (result : Except String String) : PyObj :=
  match result with
  | Except.error e => PyObj.dict [("error", PyObj.str e)]
  | Except.ok r => PyObj.dict [("search_result", PyObj.str r)]

/-- The loop `for i, result in enumerate(search_results): category =
category_keys[i]; ...`: consumes results in order, pairing each with the
category key of the same index.  `none` models the `IndexError` raised when
there are more results than category keys (more iterations than keys). -/
def aggregate_research : List String → List (Except String String) →
    Option (List (String × PyObj))
  | _, [] => some []
  | [], _ :: _ => none
  | cat :: cats, r :: rs =>
      (aggregate_research cats rs).map (fun rest => (cat, research_entry r) :: rest)

/-- Model of `deep_research_tool` from `src/worker/worker.py`: checks the API key,
fans out one `linkup_search_worker` task per search category, gathers with
`return_exceptions=True`, aggregates per category, and serializes.  The
outer except branch (reachable only through the modelled `IndexError`)
returns the `Research failed` error object. -/
def deep_research_tool (api_key : Option String) (subject : String)
    (search : String → Except String String) : String :=
  match api_key with
  | none => PyObj.dumps (PyObj.dict [("error", PyObj.str "Linkup API key not configured")])
  | some _ =>
    let category_keys := (search_categories subject).map (fun cq => cq.1)
    let search_results := asyncio_gather_re (deep_research_tasks subject search)
    match aggregate_research category_keys search_results with
    | some aggregated_data => PyObj.dumps (PyObj.dict aggregated_data)
    | none => PyObj.dumps (PyObj.dict
        [("error", PyObj.str "Research failed: list index out of range")])

end Worker

namespace LinkupService

/-- Outcome of the Linkup SDK interaction inside `search_with_linkup`'s try
block: a truthy response together with the outcome of serializing it
(`Except.error` models a serialization exception, carrying the interpolated
response-type text), a falsy (empty or null) response, an `ImportError`,
or any other exception with its message, type name, and the optional
`e.response.text`. -/
inductive LinkupSdkOutcome where
  | success (serialization : Except String String)
  | empty
  | importError
  | failure (msg : String) (tyName : String) (responseText : Option String)

/-- Model of `search_with_linkup` from `src/worker/linkup_service.py`.
`api_key` models the `LINKUP_API_KEY` value imported from `config.py`;
`outcome` models the SDK call performed through `asyncio.to_thread`.  The
`depth` and `output_type` arguments are passed through to the SDK call and
do not affect which branch is taken. -/
def search_with_linkup (api_key : Option String) (query : String)
    (depth : String) (output_type : String) (outcome : LinkupSdkOutcome) : String :=
  match api_key with
  | none => PyObj.dumps (PyObj.dict
      [("error", PyObj.str "Error: Linkup API key is not configured. Check your .env file and config.py.")])
  | some _ =>
    match outcome with
    | LinkupSdkOutcome.success (Except.ok serialized) => serialized
    | LinkupSdkOutcome.success (Except.error tyDesc) =>
        PyObj.dumps (PyObj.dict
          [("error", PyObj.str ("Linkup SDK response could not be serialized. Response type: " ++ tyDesc))])
    | LinkupSdkOutcome.empty =>
        PyObj.dumps (PyObj.dict
          [("info", PyObj.str "Linkup SDK returned an empty or null response.")])
    | LinkupSdkOutcome.importError =>
        PyObj.dumps (PyObj.dict
          [("error", PyObj.str "Error: The 'linkup' library for Linkup search is not installed.")])
    | LinkupSdkOutcome.failure msg tyName responseText =>
        let base := "Error during Linkup SDK operation: " ++ msg ++ " (Type: " ++ tyName ++ ")"
        let detailed :=
          match responseText with
          | some t => base ++ " - Linkup Response Details: " ++ t
          | none => base
        PyObj.dumps (PyObj.dict [("error", PyObj.str detailed)])

end LinkupService

namespace AgentTools

/-- The `search_categories` dict of `LinkupSearchTool.run` in
`src/worker/agent_tools.py`, in definition order. -/
def agent_search_categories (subject : String) : List (String × String) :=
  [("general_info_and_subtitle", "what is " ++ subject ++ " API OR " ++ subject ++ " technology overview OR " ++ subject ++ " product description"),
   ("github_link", subject ++ " official GitHub repository OR " ++ subject ++ " source code link github"),
   ("documentation_link", subject ++ " official API documentation OR " ++ subject ++ " developer docs"),
   ("release_date", "official release date of " ++ subject ++ " API OR " ++ subject ++ " product launch date"),
   ("reddit_pros_cons_reviews", "site:reddit.com " ++ subject ++ " API pros and cons OR site:reddit.com " ++ subject ++ " API review OR site:reddit.com " ++ subject ++ " API advantages disadvantages"),
   ("use_cases_and_examples", subject ++ " API use cases OR projects using " ++ subject ++ " API OR " ++ subject ++ " API tutorial github examples"),
   ("stack_compatibility", subject ++ " API stack compatibility OR " ++ subject ++ " works with python OR " ++ subject ++ " langchain integration"),
   ("pricing_business_model", subject ++ " API pricing OR " ++ subject ++ " API free tier OR " ++ subject ++ " API business model"),
   ("security_information", subject ++ " API security OR " ++ subject ++ " SOC 2 compliance OR " ++ subject ++ " API data policy"),
   ("mcp_link", subject ++ " Model Context Protocol OR " ++ subject ++ " MCP OR 'Model Context Protocol' for " ++ subject ++ " API")]

/-- The task list built by the loop `for category_key, query_string in
search_categories.items(): tasks.append(search_with_linkup(query_string))`.
`searchFn` abstracts one `search_with_linkup` call on a query string;
`search_with_linkup` catches every exception, so a task always yields a
string. -/
def agent_tasks (subject : String) (searchFn : String → String) : List String :=
  (agent_search_categories subject).map (fun cq => searchFn cq.2)

/-- Model of `asyncio.gather(*tasks)` on tasks that cannot raise: the
results are delivered in task order. -/
def asyncio_gather (results : List String) : List String :=
  results

/-- One aggregated entry of `LinkupSearchTool.run`: the parsed JSON of that
category's own result string, or the invalid-JSON error record carrying the
raw content when `json.loads` fails. -/
def agent_entry (raw : String) (parsed : Option PyObj) : PyObj :=
  match parsed with
  | some p => p
  | none => PyObj.dict
      [("error", PyObj.str "Invalid JSON response from Linkup"),
       ("raw_content", PyObj.str raw)]

/-- The aggregation loop of `LinkupSearchTool.run`: iterates over the
category keys, indexing into the result list; an `IndexError` (fewer
results than keys) is caught per entry and becomes the missing-result error
record.  `loads` models `json.loads` on a result string. -/
def agent_aggregate (loads : String → Option PyObj) :
    List String → List String → List (String × PyObj)
  | [], _ => []
  | key :: keys, [] =>
      (key, PyObj.dict [("error", PyObj.str "Missing result from Linkup search.")]) ::
        agent_aggregate loads keys []
  | key :: keys, r :: rs =>
      (key, agent_entry r (loads r)) :: agent_aggregate loads keys rs

/-- The search phase of `LinkupSearchTool.run` once a valid subject has been
obtained: fan out one `search_with_linkup` task per category, gather, parse
and aggregate per category key, and serialize. -/
def run_searches (subject : String) (searchFn : String → String)
    (loads : String → Option PyObj) : String :=
  let category_keys := (agent_search_categories subject).map (fun cq => cq.1)
  let search_results_json_strings := asyncio_gather (agent_tasks subject searchFn)
  PyObj.dumps (PyObj.dict (agent_aggregate loads category_keys search_results_json_strings))

/-- Result of the subject-extraction phase of `LinkupSearchTool.run`: an
early error-JSON return, a validated subject string to search for, or an
uncaught `AttributeError` (the argument parsed to JSON that is not an
object, so `parsed_args.get` does not exist). -/
inductive SubjectOutcome where
  | errorReturn (response : String)
  | ok (subject : String)
  | attributeError

/-- The subject-extraction phase of `LinkupSearchTool.run` in
`src/worker/agent_tools.py`.  `parsed` models `json.loads(subject_json_string)`,
with `none` for a `json.JSONDecodeError`; on decode failure the raw argument
string itself is used as the subject.  The final
`isinstance(subject, str) and subject.strip()` validation follows. -/
def run_subject (subject_json_string : String) (parsed : Option PyObj) : SubjectOutcome :=
  match parsed with
  | some (PyObj.dict entries) =>
    let subject := pyGet entries "subject"
    if !optTruthy subject then
      SubjectOutcome.errorReturn (PyObj.dumps (PyObj.dict
        [("error", PyObj.str "Invalid subject format received by tool"),
         ("details", PyObj.str "Subject key missing after JSON parse.")]))
    else
      match subject with
      | some (PyObj.str s) =>
          if py_blank s then
            SubjectOutcome.errorReturn (PyObj.dumps (PyObj.dict
              [("error", PyObj.str "Invalid subject after processing"),
               ("details", PyObj.str ("Final subject is '" ++ s ++ "'"))]))
          else SubjectOutcome.ok s
      | some v =>
          SubjectOutcome.errorReturn (PyObj.dumps (PyObj.dict
            [("error", PyObj.str "Invalid subject after processing"),
             ("details", PyObj.str ("Final subject is '" ++ pyStr v ++ "'"))]))
      | none =>
          SubjectOutcome.errorReturn (PyObj.dumps (PyObj.dict
            [("error", PyObj.str "Invalid subject after processing"),
             ("details", PyObj.str "Final subject is 'None'")]))
  | some _ => SubjectOutcome.attributeError
  | none =>
    if py_blank subject_json_string then
      SubjectOutcome.errorReturn (PyObj.dumps (PyObj.dict
        [("error", PyObj.str "Invalid subject after processing"),
         ("details", PyObj.str ("Final subject is '" ++ subject_json_string ++ "'"))]))
    else SubjectOutcome.ok subject_json_string

/-- Observable result of one `LinkupSearchTool.run` invocation: a returned
string together with whether any search was issued, or an uncaught
exception. -/
inductive RunResult where
  | ret (output : String) (searched : Bool)
  | attributeError

namespace LinkupSearchTool

/-- Model of `LinkupSearchTool.run` from `src/worker/agent_tools.py`:
extract and validate the subject, then either return the error JSON without
searching, or run the per-category searches. -/
def run (subject_json_string : String) (parsed : Option PyObj)
    (searchFn : String → String) (loads : String → Option PyObj) : RunResult :=
  match run_subject subject_json_string parsed with
  | SubjectOutcome.errorReturn response => RunResult.ret response false
  | SubjectOutcome.attributeError => RunResult.attributeError
  | SubjectOutcome.ok subject => RunResult.ret (run_searches subject searchFn loads) true

end LinkupSearchTool

end AgentTools

namespace ApiServer

/-- Observable outcome of one request to the `/search/` handler: the HTTP
status, whether `Runner.run` was started, the returned body (for 200), and
the `detail` payload of a raised `HTTPException`. -/
structure EndpointResponse where
  status : Nat
  runStarted : Bool
  body : Option String
  detail : Option PyObj

/-- Model of the `/search/` handler `run_search_agent` from
`src/api_server.py`.  `orchestrator` models `app.state.orchestrator` (set to
`None` when startup initialization failed); `runOutcome` models what
`Runner.run(orchestrator, question, max_turns=25)` would do if started:
`Except.ok` its `final_output`, `Except.error` the message of the exception
it raises.  The 400 and 503 `HTTPException`s are raised before the
try block, so they are not caught by the generic handler. -/
def run_search_agent (question : String) (orchestrator : Option Unit)
    (runOutcome : Except String String) : EndpointResponse :=
  if py_blank question then
    { status := 400, runStarted := false, body := none,
      detail := some (PyObj.str "La question ne peut pas être vide.") }
  else
    match orchestrator with
    | none =>
        { status := 503, runStarted := false, body := none,
          detail := some (PyObj.dict
            [("error", PyObj.str "Service non disponible"),
             ("message", PyObj.str "L'orchestrateur n'a pas pu être initialisé.")]) }
    | some _ =>
        match runOutcome with
        | Except.ok finalOutput =>
            { status := 200, runStarted := true, body := some finalOutput,
              detail := none }
        | Except.error e =>
            { status := 500, runStarted := true, body := none,
              detail := some (PyObj.dict
                [("error", PyObj.str "Une erreur inattendue est survenue lors du traitement de votre requête."),
                 ("details", PyObj.str e)]) }

/-- A registered FastAPI route: its path and the HTTP methods it accepts. -/
structure Route where
  path : String
  methods : List String
deriving DecidableEq

/-- The routes registered on the app in `src/api_server.py`:
`@app.post("/search/")` on the search handler and `@app.get("/")` on the
root greeting. -/
def app_routes : List Route :=
  [{ path := "/search/", methods := ["POST"] },
   { path := "/", methods := ["GET"] }]

/-- The registered routes whose path is the search endpoint. -/
def search_routes : List Route :=
  app_routes.filter (fun r => r.path == "/search/")

end ApiServer

/-- Claim C1: for every research call dispatched by the orchestrator, an
exception raised by the per-tool research is converted into an error-tagged
JSON object (a serialized object carrying an "error" key) instead of
propagating, a successful run's output is returned as is, and — inside the
worker's fan-out — every category's aggregated entry is a function of that
category's own search outcome alone, so one failed call never prevents a
sibling from contributing its own result. -/
theorem claim_C1_research_failure_isolation :
    (∀ tool_name research_focus e,
      Orchestrator.research_worker tool_name research_focus (Except.error e) =
        PyObj.dumps (PyObj.dict
          [("error", PyObj.str ("Research failed for " ++ tool_name ++ ": " ++ e)),
           ("tool_name", PyObj.str tool_name),
           ("research_focus", PyObj.str research_focus)]) ∧
      PyObj.hasKey (PyObj.dict
          [("error", PyObj.str ("Research failed for " ++ tool_name ++ ": " ++ e)),
           ("tool_name", PyObj.str tool_name),
           ("research_focus", PyObj.str research_focus)]) "error" = true ∧
      (∀ out, Orchestrator.research_worker tool_name research_focus (Except.ok out) = out)) ∧
    (∀ api_key subject (search : String → Except String String),
      Worker.deep_research_tool (some api_key) subject search =
        PyObj.dumps (PyObj.dict
          [("basic_info_technical",
             Worker.research_entry (search (Worker.basic_info_technical_query subject))),
           ("community_feedback",
             Worker.research_entry (search (Worker.community_feedback_query subject))),
           ("implementation_examples",
             Worker.research_entry (search (Worker.implementation_examples_query subject)))])) ∧
    (∀ e, Worker.research_entry (Except.error e) = PyObj.dict [("error", PyObj.str e)] ∧
      PyObj.hasKey (PyObj.dict [("error", PyObj.str e)]) "error" = true) := by
  refine ⟨fun tool_name research_focus e => ⟨rfl, rfl, fun out => rfl⟩,
          fun api_key subject search => rfl,
          fun e => ⟨rfl, rfl⟩⟩

/-- Claim C2: for every research subject, one search task is issued per
prepared category — three in `deep_research_tool`, ten in
`LinkupSearchTool.run` — with no drop and no deduplication of queries, and
the aggregated JSON object contains exactly one entry per category key, in
the categories' definition order, each entry computed from that category's
own result (or being its own error record). -/
theorem claim_C2_per_category_fanout :
    ∀ subject : String,
      ((Worker.search_categories subject).length = 3 ∧
       ∀ search : String → Except String String,
         Worker.deep_research_tasks subject search =
           [search (Worker.basic_info_technical_query subject),
            search (Worker.community_feedback_query subject),
            search (Worker.implementation_examples_query subject)] ∧
         Worker.asyncio_gather_re (Worker.deep_research_tasks subject search) =
           Worker.deep_research_tasks subject search ∧
         Worker.aggregate_research
             ((Worker.search_categories subject).map (fun cq => cq.1))
             (Worker.deep_research_tasks subject search) =
           some [("basic_info_technical",
                   Worker.research_entry (search (Worker.basic_info_technical_query subject))),
                 ("community_feedback",
                   Worker.research_entry (search (Worker.community_feedback_query subject))),
                 ("implementation_examples",
                   Worker.research_entry (search (Worker.implementation_examples_query subject)))] ∧
         ∀ api_key, Worker.deep_research_tool (some api_key) subject search =
           PyObj.dumps (PyObj.dict
             [("basic_info_technical",
                Worker.research_entry (search (Worker.basic_info_technical_query subject))),
              ("community_feedback",
                Worker.research_entry (search (Worker.community_feedback_query subject))),
              ("implementation_examples",
                Worker.research_entry (search (Worker.implementation_examples_query subject)))])) ∧
      ((AgentTools.agent_search_categories subject).length = 10 ∧
       ∀ (searchFn : String → String) (loads : String → Option PyObj),
         AgentTools.agent_tasks subject searchFn =
           (AgentTools.agent_search_categories subject).map (fun cq => searchFn cq.2) ∧
         (AgentTools.agent_tasks subject searchFn).length = 10 ∧
         AgentTools.run_searches subject searchFn loads =
           PyObj.dumps (PyObj.dict ((AgentTools.agent_search_categories subject).map
             (fun cq => (cq.1, AgentTools.agent_entry (searchFn cq.2) (loads (searchFn cq.2)))))) ∧
         ((AgentTools.agent_search_categories subject).map
             (fun cq => (cq.1, AgentTools.agent_entry (searchFn cq.2) (loads (searchFn cq.2))))).length = 10) := by
  intro subject
  refine ⟨⟨rfl, fun search => ⟨rfl, rfl, rfl, fun api_key => rfl⟩⟩,
          ⟨rfl, fun searchFn loads => ⟨rfl, rfl, rfl, rfl⟩⟩⟩

/-- Claim C3: an empty or whitespace-only question yields HTTP 400 and a
missing (None) orchestrator yields HTTP 503; in both cases the orchestrator
run is never started. -/
theorem claim_C3_guard_statuses :
    ∀ (question : String) (orch : Option Unit) (runOutcome : Except String String),
      (py_blank question = true →
        ApiServer.run_search_agent question orch runOutcome =
          { status := 400, runStarted := false, body := none,
            detail := some (PyObj.str "La question ne peut pas être vide.") }) ∧
      (py_blank question = false →
        ApiServer.run_search_agent question none runOutcome =
          { status := 503, runStarted := false, body := none,
            detail := some (PyObj.dict
              [("error", PyObj.str "Service non disponible"),
               ("message", PyObj.str "L'orchestrateur n'a pas pu être initialisé.")]) }) := by
  intro question orch runOutcome
  constructor
  · intro h
    simp [ApiServer.run_search_agent, h]
  · intro h
    simp [ApiServer.run_search_agent, h]

/-- Witness for claim C3: a whitespace-only question gets a 400 with no run
started, and a non-blank question with an uninitialized orchestrator gets a
503 with no run started. -/
theorem claim_C3_guard_statuses_witness :
    py_blank "   " = true ∧
    ApiServer.run_search_agent "   " (some ()) (Except.ok "out") =
      { status := 400, runStarted := false, body := none,
        detail := some (PyObj.str "La question ne peut pas être vide.") } ∧
    py_blank "web search" = false ∧
    ApiServer.run_search_agent "web search" none (Except.ok "out") =
      { status := 503, runStarted := false, body := none,
        detail := some (PyObj.dict
          [("error", PyObj.str "Service non disponible"),
           ("message", PyObj.str "L'orchestrateur n'a pas pu être initialisé.")]) } :=
  ⟨by decide,
   (claim_C3_guard_statuses "   " (some ()) (Except.ok "out")).1 (by decide),
   by decide,
   (claim_C3_guard_statuses "web search" (some ()) (Except.ok "out")).2 (by decide)⟩

/-- Claim C4: none of the three search-client wrappers propagates a
failure.  A missing API key yields an explicit error string; a timeout, a
non-200 status, or any exception yields a sentinel error-shaped value — an
"Error: ..." string for the two httpx wrappers, a serialized object carrying
an "error" key for `search_with_linkup` — and a 200 response yields the
formatted result.  Every possible outcome is covered, so the wrappers are
total and never raise. -/
theorem claim_C4_wrappers_never_raise :
    (∀ query depth outcome,
      Orchestrator.linkup_search none query depth outcome =
        "Error: Linkup API key not configured" ∧
      Worker.linkup_search_worker none query depth outcome =
        "Error: Linkup API key not configured") ∧
    (∀ k query depth,
      (Orchestrator.linkup_search (some k) query depth HttpxOutcome.timeout =
         "Error: Search request timed out" ∧
       Worker.linkup_search_worker (some k) query depth HttpxOutcome.timeout =
         "Error: Search request timed out") ∧
      (∀ e,
        Orchestrator.linkup_search (some k) query depth (HttpxOutcome.exn e) =
          "Error: Search failed - " ++ e ∧
        Worker.linkup_search_worker (some k) query depth (HttpxOutcome.exn e) =
          "Error: Search failed - " ++ e) ∧
      (∀ status answer sources, status ≠ 200 →
        Orchestrator.linkup_search (some k) query depth
            (HttpxOutcome.response status answer sources) =
          "Error: Linkup API returned status " ++ toString status ∧
        Worker.linkup_search_worker (some k) query depth
            (HttpxOutcome.response status answer sources) =
          "Error: Linkup API returned status " ++ toString status) ∧
      (∀ answer sources,
        Orchestrator.linkup_search (some k) query depth
            (HttpxOutcome.response 200 answer sources) = formatted_result answer sources ∧
        Worker.linkup_search_worker (some k) query depth
            (HttpxOutcome.response 200 answer sources) = formatted_result answer sources)) ∧
    (∀ query depth output_type outcome,
      LinkupService.search_with_linkup none query depth output_type outcome =
        PyObj.dumps (PyObj.dict
          [("error", PyObj.str "Error: Linkup API key is not configured. Check your .env file and config.py.")])) ∧
    (∀ k query depth output_type,
      (∀ tyDesc,
        LinkupService.search_with_linkup (some k) query depth output_type
            (LinkupService.LinkupSdkOutcome.success (Except.error tyDesc)) =
          PyObj.dumps (PyObj.dict
            [("error", PyObj.str ("Linkup SDK response could not be serialized. Response type: " ++ tyDesc))])) ∧
      LinkupService.search_with_linkup (some k) query depth output_type
          LinkupService.LinkupSdkOutcome.importError =
        PyObj.dumps (PyObj.dict
          [("error", PyObj.str "Error: The 'linkup' library for Linkup search is not installed.")]) ∧
      (∀ msg tyName responseText, ∃ detailed,
        LinkupService.search_with_linkup (some k) query depth output_type
            (LinkupService.LinkupSdkOutcome.failure msg tyName responseText) =
          PyObj.dumps (PyObj.dict [("error", PyObj.str detailed)]) ∧
        PyObj.hasKey (PyObj.dict [("error", PyObj.str detailed)]) "error" = true) ∧
      (∀ serialized,
        LinkupService.search_with_linkup (some k) query depth output_type
            (LinkupService.LinkupSdkOutcome.success (Except.ok serialized)) = serialized)) := by
  refine ⟨fun query depth outcome => ⟨rfl, rfl⟩,
          fun k query depth =>
            ⟨⟨rfl, rfl⟩, fun e => ⟨rfl, rfl⟩, ?_, fun answer sources => ⟨rfl, rfl⟩⟩,
          fun query depth output_type outcome => rfl,
          fun k query depth output_type =>
            ⟨fun tyDesc => rfl, rfl, ?_, fun serialized => rfl⟩⟩
  · intro status answer sources h
    constructor
    · simp [Orchestrator.linkup_search, h]
    · simp [Worker.linkup_search_worker, h]
  · intro msg tyName responseText
    cases responseText with
    | none => exact ⟨_, rfl, rfl⟩
    | some t => exact ⟨_, rfl, rfl⟩

/-- Witness for claim C4: on a concrete non-200 response the wrappers
return the status error string. -/
theorem claim_C4_wrappers_never_raise_witness :
    (500 : Nat) ≠ 200 ∧
    Orchestrator.linkup_search (some "key") "q" "standard"
        (HttpxOutcome.response 500 "" []) =
      "Error: Linkup API returned status 500" ∧
    Worker.linkup_search_worker (some "key") "q" "standard"
        (HttpxOutcome.response 500 "" []) =
      "Error: Linkup API returned status 500" :=
  ⟨by decide,
   ((claim_C4_wrappers_never_raise.2.1 "key" "q" "standard").2.2.1 500 "" []
     (by decide)).1,
   ((claim_C4_wrappers_never_raise.2.1 "key" "q" "standard").2.2.1 500 "" []
     (by decide)).2⟩

/-- Claim C5 counterexample: the claim that the request payload carries the
caller's depth argument is false.  Both httpx wrappers overwrite the depth
before building the payload: two `linkup_search` calls differing only in
depth ("standard" vs "deep") build identical payloads, and the payload of
the "standard" call carries "deep"; symmetrically, `linkup_search_worker`
always sends "standard". -/
theorem claim_C5_depth_counterexample :
    Orchestrator.linkup_search_request "example query" "standard" =
      Orchestrator.linkup_search_request "example query" "deep" ∧
    (Orchestrator.linkup_search_request "example query" "standard").depth = "deep" ∧
    Worker.linkup_search_worker_request "example query" "deep" =
      Worker.linkup_search_worker_request "example query" "standard" ∧
    (Worker.linkup_search_worker_request "example query" "deep").depth = "standard" ∧
    "deep" ≠ "standard" :=
  ⟨rfl, rfl, rfl, rfl, by decide⟩

/-- Claim C5 (amended): for every call, the request payload carries the
query unchanged but a pinned constant depth — "deep" in the orchestrator's
`linkup_search` and "standard" in the worker's `linkup_search_worker` —
regardless of the depth argument, so calls differing only in depth send the
same request. -/
theorem claim_C5_depth_pinned :
    ∀ query depth,
      Orchestrator.linkup_search_request query depth =
        { q := query, depth := "deep", outputType := "sourcedAnswer" } ∧
      Worker.linkup_search_worker_request query depth =
        { q := query, depth := "standard", outputType := "sourcedAnswer" } :=
  fun query depth => ⟨rfl, rfl⟩

/-- Claim C6: when the orchestrator run completes without raising, the
handler returns the run's final output unmodified — the response body is
exactly the final output string, so applying any parse function to the body
yields exactly what it yields on the final output, and output that is the
serialization of a JSON value passes through with that structure intact. -/
theorem claim_C6_output_passthrough :
    ∀ (question finalOutput : String), py_blank question = false →
      ApiServer.run_search_agent question (some ()) (Except.ok finalOutput) =
        { status := 200, runStarted := true, body := some finalOutput,
          detail := none } ∧
      (ApiServer.run_search_agent question (some ()) (Except.ok finalOutput)).body =
        some finalOutput ∧
      (∀ loads : String → Option PyObj,
        Option.map loads
            (ApiServer.run_search_agent question (some ()) (Except.ok finalOutput)).body =
          some (loads finalOutput)) ∧
      (∀ j : PyObj, finalOutput = PyObj.dumps j →
        (ApiServer.run_search_agent question (some ()) (Except.ok finalOutput)).body =
          some (PyObj.dumps j)) := by
  intro question finalOutput h
  refine ⟨by simp [ApiServer.run_search_agent, h], ?_, ?_, ?_⟩
  · simp [ApiServer.run_search_agent, h]
  · intro loads
    simp [ApiServer.run_search_agent, h]
  · intro j hj
    simp [ApiServer.run_search_agent, h, hj]

/-- Witness for claim C6: a concrete completed run's JSON output comes back
as the body, byte for byte. -/
theorem claim_C6_output_passthrough_witness :
    py_blank "web search" = false ∧
    ApiServer.run_search_agent "web search" (some ())
        (Except.ok "[\x7b\"title\": \"Algolia\"\x7d]") =
      { status := 200, runStarted := true,
        body := some "[\x7b\"title\": \"Algolia\"\x7d]", detail := none } :=
  ⟨by decide,
   (claim_C6_output_passthrough "web search" "[\x7b\"title\": \"Algolia\"\x7d]"
     (by decide)).1⟩

/-- Claim C7: with a non-blank question and an initialized orchestrator, an
exception raised by the orchestrator run is caught and surfaced as a 500
whose detail carries the exception text under "details", while the 400 and
503 guards fire before the run and are returned as such, never as 500. -/
theorem claim_C7_exception_to_500 :
    ∀ (question e : String) (runOutcome : Except String String),
      (py_blank question = false →
        ApiServer.run_search_agent question (some ()) (Except.error e) =
          { status := 500, runStarted := true, body := none,
            detail := some (PyObj.dict
              [("error", PyObj.str "Une erreur inattendue est survenue lors du traitement de votre requête."),
               ("details", PyObj.str e)]) } ∧
        pyGet
          [("error", PyObj.str "Une erreur inattendue est survenue lors du traitement de votre requête."),
           ("details", PyObj.str e)] "details" = some (PyObj.str e)) ∧
      (py_blank question = true →
        ∀ orch, (ApiServer.run_search_agent question orch runOutcome).status = 400 ∧
          (ApiServer.run_search_agent question orch runOutcome).status ≠ 500) ∧
      (py_blank question = false →
        (ApiServer.run_search_agent question none runOutcome).status = 503 ∧
        (ApiServer.run_search_agent question none runOutcome).status ≠ 500) := by
  intro question e runOutcome
  refine ⟨fun h => ⟨by simp [ApiServer.run_search_agent, h], rfl⟩, fun h orch => ?_, fun h => ?_⟩
  · constructor
    · simp [ApiServer.run_search_agent, h]
    · simp [ApiServer.run_search_agent, h]
  · constructor
    · simp [ApiServer.run_search_agent, h]
    · simp [ApiServer.run_search_agent, h]

/-- Witness for claim C7: a concrete run exception surfaces as a 500 whose
detail carries the exception text. -/
theorem claim_C7_exception_to_500_witness :
    py_blank "web search" = false ∧
    ApiServer.run_search_agent "web search" (some ())
        (Except.error "boom") =
      { status := 500, runStarted := true, body := none,
        detail := some (PyObj.dict
          [("error", PyObj.str "Une erreur inattendue est survenue lors du traitement de votre requête."),
           ("details", PyObj.str "boom")]) } :=
  ⟨by decide,
   ((claim_C7_exception_to_500 "web search" "boom" (Except.ok "out")).1 (by decide)).1⟩

/-- Claim C8 counterexample: the claim that the search endpoint is
reachable via both GET and POST is false.  The app registers exactly one
route at the search path and its method list is POST only; GET is not among
its methods. -/
theorem claim_C8_get_counterexample :
    ApiServer.search_routes =
      [{ path := "/search/", methods := ["POST"] }] ∧
    "GET" ∉ ({ path := "/search/", methods := ["POST"] } : ApiServer.Route).methods :=
  ⟨rfl, by decide⟩

/-- Claim C8 (amended): the application exposes a single search endpoint,
registered at "/search/" and reachable via the POST method only, taking a
question parameter and handled by `run_search_agent`. -/
theorem claim_C8_post_only_endpoint :
    ApiServer.search_routes.length = 1 ∧
    ApiServer.search_routes = [{ path := "/search/", methods := ["POST"] }] ∧
    "POST" ∈ ({ path := "/search/", methods := ["POST"] } : ApiServer.Route).methods ∧
    "GET" ∉ ({ path := "/search/", methods := ["POST"] } : ApiServer.Route).methods :=
  ⟨rfl, rfl, by decide, by decide⟩

/-- Claim C9: an empty or null Linkup SDK response makes `search_with_linkup`
return a serialized object tagged with an "info" key and carrying no "error"
key, a third output shape distinct from both a successful result and the
error-shaped values, which a caller keying on "error" will not classify as
a failure. -/
theorem claim_C9_empty_response_info_shape :
    ∀ (k query depth output_type : String),
      LinkupService.search_with_linkup (some k) query depth output_type
          LinkupService.LinkupSdkOutcome.empty =
        PyObj.dumps (PyObj.dict
          [("info", PyObj.str "Linkup SDK returned an empty or null response.")]) ∧
      PyObj.hasKey (PyObj.dict
          [("info", PyObj.str "Linkup SDK returned an empty or null response.")]) "info" = true ∧
      PyObj.hasKey (PyObj.dict
          [("info", PyObj.str "Linkup SDK returned an empty or null response.")]) "error" = false :=
  fun k query depth output_type => ⟨rfl, rfl, rfl⟩

/-- Claim C10: when the argument of `LinkupSearchTool.run` is not valid
JSON the raw argument string itself becomes the search subject; and
whenever the resulting subject is missing or falsy, a truthy non-string, or
a whitespace-only string, the tool returns a JSON error object (carrying an
"error" key) and issues no search. -/
theorem claim_C10_subject_fallback_and_validation :
    ∀ (raw : String) (searchFn : String → String) (loads : String → Option PyObj),
      (py_blank raw = false →
        AgentTools.LinkupSearchTool.run raw none searchFn loads =
          AgentTools.RunResult.ret (AgentTools.run_searches raw searchFn loads) true) ∧
      (py_blank raw = true →
        AgentTools.LinkupSearchTool.run raw none searchFn loads =
          AgentTools.RunResult.ret (PyObj.dumps (PyObj.dict
            [("error", PyObj.str "Invalid subject after processing"),
             ("details", PyObj.str ("Final subject is '" ++ raw ++ "'"))])) false) ∧
      (∀ entries, optTruthy (pyGet entries "subject") = false →
        AgentTools.LinkupSearchTool.run raw (some (PyObj.dict entries)) searchFn loads =
          AgentTools.RunResult.ret (PyObj.dumps (PyObj.dict
            [("error", PyObj.str "Invalid subject format received by tool"),
             ("details", PyObj.str "Subject key missing after JSON parse.")])) false) ∧
      (∀ entries v, pyGet entries "subject" = some v → v.truthy = true →
          (∀ s, v ≠ PyObj.str s) →
        AgentTools.LinkupSearchTool.run raw (some (PyObj.dict entries)) searchFn loads =
          AgentTools.RunResult.ret (PyObj.dumps (PyObj.dict
            [("error", PyObj.str "Invalid subject after processing"),
             ("details", PyObj.str ("Final subject is '" ++ pyStr v ++ "'"))])) false) ∧
      (∀ entries s, pyGet entries "subject" = some (PyObj.str s) →
          s.isEmpty = false → py_blank s = true →
        AgentTools.LinkupSearchTool.run raw (some (PyObj.dict entries)) searchFn loads =
          AgentTools.RunResult.ret (PyObj.dumps (PyObj.dict
            [("error", PyObj.str "Invalid subject after processing"),
             ("details", PyObj.str ("Final subject is '" ++ s ++ "'"))])) false) ∧
      PyObj.hasKey (PyObj.dict
        [("error", PyObj.str "Invalid subject format received by tool"),
         ("details", PyObj.str "Subject key missing after JSON parse.")]) "error" = true := by
  intro raw searchFn loads
  refine ⟨?_, ?_, ?_, ?_, ?_, rfl⟩
  · intro h
    simp [AgentTools.LinkupSearchTool.run, AgentTools.run_subject, h]
  · intro h
    simp [AgentTools.LinkupSearchTool.run, AgentTools.run_subject, h]
  · intro entries h
    simp [AgentTools.LinkupSearchTool.run, AgentTools.run_subject, h]
  · intro entries v hget htr hns
    cases v with
    | null => simp [PyObj.truthy] at htr
    | bool b =>
        cases b with
        | false => simp [PyObj.truthy] at htr
        | true =>
            simp [AgentTools.LinkupSearchTool.run, AgentTools.run_subject, hget,
              optTruthy, PyObj.truthy, pyStr]
    | int n =>
        simp [AgentTools.LinkupSearchTool.run, AgentTools.run_subject, hget,
          optTruthy, htr, pyStr]
    | str s => exact absurd rfl (hns s)
    | list xs =>
        simp [AgentTools.LinkupSearchTool.run, AgentTools.run_subject, hget,
          optTruthy, htr, pyStr]
    | dict fs =>
        simp [AgentTools.LinkupSearchTool.run, AgentTools.run_subject, hget,
          optTruthy, htr, pyStr]
  · intro entries s hget hs hb
    simp [AgentTools.LinkupSearchTool.run, AgentTools.run_subject, hget,
      optTruthy, PyObj.truthy, hs, hb]

/-- Witness for claim C10: a non-JSON argument string is used directly as
the subject and searched; an object argument with no subject key is
rejected with the error JSON and no search. -/
theorem claim_C10_subject_fallback_and_validation_witness :
    py_blank "FastAPI" = false ∧
    AgentTools.LinkupSearchTool.run "FastAPI" none (fun _ => "null")
        (fun _ => some PyObj.null) =
      AgentTools.RunResult.ret
        (AgentTools.run_searches "FastAPI" (fun _ => "null") (fun _ => some PyObj.null))
        true ∧
    optTruthy (pyGet [] "subject") = false ∧
    AgentTools.LinkupSearchTool.run "x" (some (PyObj.dict [])) (fun _ => "null")
        (fun _ => some PyObj.null) =
      AgentTools.RunResult.ret (PyObj.dumps (PyObj.dict
        [("error", PyObj.str "Invalid subject format received by tool"),
         ("details", PyObj.str "Subject key missing after JSON parse.")])) false :=
  ⟨by decide,
   (claim_C10_subject_fallback_and_validation "FastAPI" (fun _ => "null")
     (fun _ => some PyObj.null)).1 (by decide),
   by decide,
   ((claim_C10_subject_fallback_and_validation "x" (fun _ => "null")
     (fun _ => some PyObj.null)).2.2.1 [] (by decide))⟩
